import Mathlib

/-!
Shallow embedding of the canvas timeline engine (CanvasTimeline component).

All JavaScript numbers are modelled as exact rationals; the canvas text
measurement context is modelled as an explicit parameter
(a function assigning each record its measured label width in pixels),
since measured widths depend only on the record and the ambient fonts.
-/

namespace Timeline

/-- ROW_HEIGHT constant. -/
def ROW_HEIGHT : ℚ := 28

/-- MARKER_PADDING constant. -/
def MARKER_PADDING : ℚ := 4

/-- AXIS_HEIGHT constant. -/
def AXIS_HEIGHT : ℚ := 40

/-- GROUP_LABEL_WIDTH constant. -/
def GROUP_LABEL_WIDTH : ℚ := 160

/-- SCROLL_SPEED constant. -/
def SCROLL_SPEED : ℚ := 3/4

/-- ZOOM_SPEED constant. -/
def ZOOM_SPEED : ℚ := 1/40

/-- LERP_FACTOR constant. -/
def LERP_FACTOR : ℚ := 1/4

/-- LAYOUT_SCALE constant, the fixed reference scale used by the stable layout. -/
def LAYOUT_SCALE : ℚ := 1/2

/-- OVERLAP_GAP constant, the fixed pixel gap required between visible records. -/
def OVERLAP_GAP : ℚ := 5

/-- Era flag of a date specification. -/
inductive Era where
  | BCE : Era
  | CE : Era
deriving DecidableEq

/-- A date specification: signed-magnitude year plus era and circa flags. -/
structure DateSpec where
  year : ℚ
  era : Era
  circa : Bool
deriving DecidableEq

/-- A timeline record. Fields read only through canvas text measurement
(title) are kept for completeness; the measured width itself is a parameter
of the functions below. -/
structure TimelineEntry where
  id : String
  title : String
  date_start : DateSpec
  date_end : Option DateSpec
  group_dynasty : String
  group_era : String
deriving DecidableEq

/-- Grouping mode selected by the host. -/
inductive GroupingMode where
  | dynasty : GroupingMode
  | era : GroupingMode
deriving DecidableEq

/-- Camera state, used both for the current snapshot and the target. -/
structure ViewState where
  offsetX : ℚ
  offsetY : ℚ
  scale : ℚ
deriving DecidableEq

/-- Viewport dimensions. -/
structure Dims where
  width : ℚ
  height : ℚ
deriving DecidableEq

/-- getYear: ordering year of a record; the end date is used only when
requested and present. BCE years are negated in magnitude. -/
def getYear (entry : TimelineEntry) (isEnd : Bool) : ℚ :=
  let date := if isEnd && entry.date_end.isSome
    then entry.date_end.getD entry.date_start
    else entry.date_start
  if date.era = Era.BCE then -|date.year| else date.year

/-- pixelsToYears: converts a pixel length to a year length at a scale. -/
def pixelsToYears (px : ℚ) (scale : ℚ) : ℚ :=
  px / (scale * 10)

/-- lerp between two values. -/
def lerp (start finish t : ℚ) : ℚ :=
  start + (finish - start) * t

/-- Group key of a record under a grouping mode; empty keys fall back to
the default label (JavaScript falsy check). -/
def getGroupKey (mode : GroupingMode) (entry : TimelineEntry) : String :=
  match mode with
  | GroupingMode.dynasty => if entry.group_dynasty = "" then "Non classé" else entry.group_dynasty
  | GroupingMode.era => if entry.group_era = "" then "Non classé" else entry.group_era

/-- Minimum and maximum ordering years over the record set, with the default
range for an empty set. -/
def minMaxYears (entries : List TimelineEntry) : ℚ × ℚ :=
  match entries.map (fun e =>
      (getYear e false, if e.date_end.isSome then getYear e true else getYear e false)) with
  | [] => (0, 100)
  | p :: ps => ps.foldl (fun acc q => (min acc.1 q.1, max acc.2 q.2)) p

/-- minScale: the smaller of 0.05 and the scale at which the full year span
exactly fills the available plot width. -/
def minScale (width minYear maxYear : ℚ) : ℚ :=
  min (1/20) ((width - GROUP_LABEL_WIDTH - 100) / ((maxYear - minYear) * 10))

/-- yearToX: projects an ordering year to a pixel x coordinate. -/
def yearToX (minYear : ℚ) (vs : ViewState) (year : ℚ) : ℚ :=
  (year - minYear) * (vs.scale * 10) + vs.offsetX + GROUP_LABEL_WIDTH + 50

/-- xToYear: recovers the ordering year at a pixel x coordinate. -/
def xToYear (minYear : ℚ) (vs : ViewState) (x : ℚ) : ℚ :=
  (x - vs.offsetX - GROUP_LABEL_WIDTH - 50) / (vs.scale * 10) + minYear

/-- zoomIn: raise the target scale by the fixed factor, clamped above at 5. -/
def zoomIn (prev : ViewState) : ViewState :=
  { prev with scale := min 5 (prev.scale * (13/10)) }

/-- zoomOut: lower the target scale by the fixed factor, clamped below at
minScale. -/
def zoomOut (minSc : ℚ) (prev : ViewState) : ViewState :=
  { prev with scale := max minSc (prev.scale / (13/10)) }

/-- Wheel zoom with the zoom modifier held: rescale about the pointer,
clamping the scale, then solve the new horizontal offset so the year under
the pointer stays put. -/
def wheelZoom (minYear minSc : ℚ) (vs : ViewState) (mouseX deltaY : ℚ) : ViewState :=
  let zoomFactor := 1 - deltaY * ZOOM_SPEED
  let currentPixelsPerYear := vs.scale * 10
  let yearAtMouse := (mouseX - vs.offsetX - GROUP_LABEL_WIDTH - 50) / currentPixelsPerYear + minYear
  let newScale := max minSc (min 5 (vs.scale * zoomFactor))
  let newPixelsPerYear := newScale * 10
  let newOffsetX := mouseX - (yearAtMouse - minYear) * newPixelsPerYear - GROUP_LABEL_WIDTH - 50
  { offsetX := newOffsetX, offsetY := vs.offsetY, scale := newScale }

/-- Wheel pan on the vertical axis: translate and clamp the vertical offset
to the content bounds. -/
def wheelPanY (dims : Dims) (totalHeight : ℚ) (deltaY : ℚ) (prev : ViewState) : ViewState :=
  let minOffsetY := min 0 (dims.height - AXIS_HEIGHT - totalHeight)
  { prev with offsetY := max minOffsetY (min 0 (prev.offsetY - deltaY * SCROLL_SPEED)) }

/-- Drag origin captured on pointer down. -/
structure DragStart where
  x : ℚ
  y : ℚ
  offsetX : ℚ
  offsetY : ℚ
deriving DecidableEq

/-- Pointer move while dragging: one-to-one translation of the offsets with
the vertical offset clamped to the content bounds; the scale is kept. -/
def dragMove (dims : Dims) (totalHeight : ℚ) (ds : DragStart)
    (clientX clientY vsScale : ℚ) : ViewState :=
  let dx := clientX - ds.x
  let dy := clientY - ds.y
  let minOffsetY := min 0 (dims.height - AXIS_HEIGHT - totalHeight)
  { offsetX := ds.offsetX + dx,
    offsetY := max minOffsetY (min 0 (ds.offsetY + dy)),
    scale := vsScale }

/-- A stable layout result: record, row index, group key. -/
structure LayoutEntry where
  entry : TimelineEntry
  row : ℕ
  group : String
deriving DecidableEq

/-- A group band with its vertical placement. -/
structure GroupPos where
  key : String
  entries : List TimelineEntry
  y : ℚ
  height : ℚ
deriving DecidableEq

/-- A per frame pixel rectangle for a layout record at the current camera. -/
structure PositionedEvent where
  entry : TimelineEntry
  x : ℚ
  y : ℚ
  width : ℚ
  height : ℚ
  group : String
  row : ℕ
deriving DecidableEq

/-- First occurrence deduplication, modelling the key iteration order of a
JavaScript Map built by insertion. -/
def firstDedupAux (seen : List String) : List String → List String
  | [] => []
  | a :: l => if a ∈ seen then firstDedupAux seen l else a :: firstDedupAux (a :: seen) l

/-- Keys in first occurrence order. -/
def firstDedup (l : List String) : List String :=
  firstDedupAux [] l

/-- Minimum ordering year among the records of a group, 0 when the group is
empty (the JavaScript fallback for a missing key). -/
def groupFirstYear (mode : GroupingMode) (entries : List TimelineEntry) (key : String) : ℚ :=
  match ((entries.filter (fun e => getGroupKey mode e = key)).map (fun e => getYear e false)) with
  | [] => 0
  | y :: ys => ys.foldl min y

/-- Group keys sorted ascending by first year; the sort is stable, ties keep
first occurrence order. -/
def sortedGroupKeys (mode : GroupingMode) (entries : List TimelineEntry) : List String :=
  List.insertionSort
    (fun a b => groupFirstYear mode entries a ≤ groupFirstYear mode entries b)
    (firstDedup (entries.map (getGroupKey mode)))

/-- First row whose occupied cursor has retreated past the limit. -/
def findRow (rows : List ℚ) (limit : ℚ) : ℕ :=
  match rows with
  | [] => 0
  | r :: rest => if r > limit then findRow rest limit + 1 else 0

/-- Write the cursor of a row, extending the row list when the index is new. -/
def updateRows (rows : List ℚ) (i : ℕ) (v : ℚ) : List ℚ :=
  if i < rows.length then rows.set i v else rows ++ [v]

/-- Greedy per group shelf packing: iterate records in ordering year order,
assign each the first row free at its start minus the gap, update that row
cursor to its occupied span end plus the gap. Widths are measured at the
fixed reference scale. -/
def assignRowsAux (measure : TimelineEntry → ℚ) :
    List ℚ → List TimelineEntry → List (TimelineEntry × ℕ) × List ℚ
  | rows, [] => ([], rows)
  | rows, e :: es =>
    let startYear := getYear e false
    let textYearWidth := pixelsToYears (measure e) LAYOUT_SCALE
    let endYear :=
      if e.date_end.isSome then max (getYear e true) (startYear + textYearWidth)
      else startYear + textYearWidth
    let gap := pixelsToYears 5 LAYOUT_SCALE
    let row := findRow rows (startYear - gap)
    let rows2 := updateRows rows row (endYear + gap)
    let rest := assignRowsAux measure rows2 es
    ((e, row) :: rest.1, rest.2)

/-- Full stable layout output. -/
structure StableLayout where
  layoutEntries : List LayoutEntry
  groups : List GroupPos
  totalHeight : ℚ
deriving DecidableEq

/-- The stable layout: group records by key, order groups by first year,
sort each group by ordering year (stable), pack rows per group, then stack
bands vertically starting below the axis. -/
def stableLayout (mode : GroupingMode) (measure : TimelineEntry → ℚ)
    (entries : List TimelineEntry) : StableLayout :=
  let keys := sortedGroupKeys mode entries
  let perGroup := keys.map (fun k =>
    let groupEntries := List.insertionSort (fun a b => getYear a false ≤ getYear b false)
      (entries.filter (fun e => getGroupKey mode e = k))
    let assigned := assignRowsAux measure [] groupEntries
    (k, groupEntries, assigned.1, max assigned.2.length 1))
  let layoutEntries := perGroup.flatMap (fun g =>
    g.2.2.1.map (fun p => { entry := p.1, row := p.2, group := g.1 }))
  let positions := perGroup.foldl (fun acc g =>
    let height := (g.2.2.2 : ℚ) * ROW_HEIGHT
    (acc.1 ++ [{ key := g.1, entries := g.2.1, y := acc.2, height := height }], acc.2 + height))
    (([] : List GroupPos), AXIS_HEIGHT)
  { layoutEntries := layoutEntries, groups := positions.1, totalHeight := positions.2 }

/-- Vertical offset of a group band, with the JavaScript falsy fallback to
the axis height. -/
def groupYOf (groups : List GroupPos) (key : String) : ℚ :=
  let gy := ((groups.find? (fun g => g.key = key)).map GroupPos.y).getD 0
  if gy = 0 then AXIS_HEIGHT else gy

/-- Projector: pixel rectangles for all layout records at the current
camera. Period widths are the larger of the projected date span and the
measured label width; point widths are the measured label width. -/
def positionedOf (minYear : ℚ) (vs : ViewState) (measure : TimelineEntry → ℚ)
    (sl : StableLayout) : List PositionedEvent :=
  sl.layoutEntries.map (fun le =>
    let startX := yearToX minYear vs (getYear le.entry false)
    let width :=
      if le.entry.date_end.isSome then
        max (yearToX minYear vs (getYear le.entry true) - startX) (measure le.entry)
      else measure le.entry
    { entry := le.entry,
      x := startX,
      y := groupYOf sl.groups le.group + (le.row : ℚ) * ROW_HEIGHT,
      width := width,
      height := ROW_HEIGHT - MARKER_PADDING,
      group := le.group,
      row := le.row })

/-- The full pipeline from the record set to projected rectangles. -/
def positionedEvents (mode : GroupingMode) (measure : TimelineEntry → ℚ)
    (entries : List TimelineEntry) (vs : ViewState) : List PositionedEvent :=
  positionedOf (minMaxYears entries).1 vs measure (stableLayout mode measure entries)

/-- Row bucket key of a projected record. -/
def rowKey (p : PositionedEvent) : String :=
  p.group ++ ":" ++ toString p.row

/-- Projected records bucketed by group and row, keys in first occurrence
order, each bucket in projection order. -/
def rowEvents (ps : List PositionedEvent) : List (String × List PositionedEvent) :=
  (firstDedup (ps.map rowKey)).map (fun k => (k, ps.filter (fun p => rowKey p = k)))

/-- An aggregate badge for a hidden run inside one row. A trailing badge has
equal anchor records. -/
structure HiddenBadge where
  afterPos : PositionedEvent
  beforePos : PositionedEvent
  count : ℕ
  yearMin : ℚ
  yearMax : ℚ
  rightmostLabelWidth : ℚ
deriving DecidableEq

/-- End year of a record with the JavaScript falsy fallback to the start
year when the end or start year evaluates to zero. -/
def endOrStartYear (entry : TimelineEntry) : ℚ :=
  if getYear entry true = 0 then getYear entry false else getYear entry true

/-- State and output of the per row visibility scan. -/
structure ScanResult where
  vis : List String
  badges : List HiddenBadge
  lastVis : PositionedEvent
  hidden : ℕ
  lastEv : PositionedEvent
deriving DecidableEq

/-- Per row culling loop: a record becomes visible when its left edge
clears the right edge of the immediately preceding record plus the gap;
it then closes a pending hidden run into one badge anchored between the
previous visible record and itself. Otherwise it joins the pending run. -/
def rowScanAux (measure : TimelineEntry → ℚ) :
    PositionedEvent → PositionedEvent → ℕ → List PositionedEvent → ScanResult
  | lastVis, prev, hidden, [] =>
    { vis := [], badges := [], lastVis := lastVis, hidden := hidden, lastEv := prev }
  | lastVis, prev, hidden, curr :: rest =>
    if curr.x ≥ prev.x + prev.width + OVERLAP_GAP then
      let closing :=
        if 0 < hidden then
          [{ afterPos := lastVis, beforePos := curr, count := hidden,
             yearMin := getYear lastVis.entry false,
             yearMax := endOrStartYear curr.entry,
             rightmostLabelWidth := measure curr.entry : HiddenBadge }]
        else []
      let res := rowScanAux measure curr curr 0 rest
      { res with vis := curr.entry.id :: res.vis, badges := closing ++ res.badges }
    else
      rowScanAux measure lastVis curr (hidden + 1) rest

/-- Visibility and aggregation for one row: the first record is always
visible; a trailing hidden run emits a badge anchored after the last
visible record. Returns the visible ids and the badges of the row. -/
def rowVis (measure : TimelineEntry → ℚ) (row : List PositionedEvent) :
    List String × List HiddenBadge :=
  match row with
  | [] => ([], [])
  | first :: rest =>
    let res := rowScanAux measure first first 0 rest
    let trailing :=
      if 0 < res.hidden then
        [{ afterPos := res.lastVis, beforePos := res.lastVis, count := res.hidden,
           yearMin := getYear res.lastVis.entry false,
           yearMax := endOrStartYear res.lastEv.entry,
           rightmostLabelWidth := measure res.lastEv.entry : HiddenBadge }]
      else []
    (first.entry.id :: res.vis, res.badges ++ trailing)

/-- The global visible id set: the visible ids of every row, plus the
selected record forced in after culling. -/
def visibleSet (measure : TimelineEntry → ℚ)
    (rows : List (String × List PositionedEvent)) (selected : Option TimelineEntry) :
    List String :=
  (rows.map (fun r => (rowVis measure r.2).1)).flatten ++ (selected.map TimelineEntry.id).toList

/-- All badges of the frame, in row order. -/
def hiddenBadgesOf (measure : TimelineEntry → ℚ)
    (rows : List (String × List PositionedEvent)) : List HiddenBadge :=
  rows.flatMap (fun r => (rowVis measure r.2).2)

/-- A clickable badge rectangle. -/
structure BadgeHitRect where
  x : ℚ
  y : ℚ
  w : ℚ
  h : ℚ
  minYear : ℚ
  maxYear : ℚ
  rightmostLabelWidth : ℚ
deriving DecidableEq

/-- Badge drawing and hit rectangle computation for one badge; tw is the
measured pixel width of the badge label text. Returns none when the badge
is skipped: row off screen vertically, inter record gap narrower than 24
pixels, or anchor off screen horizontally. -/
def badgeRect (dims : Dims) (offsetY : ℚ) (tw : ℚ) (b : HiddenBadge) :
    Option BadgeHitRect :=
  let y := b.afterPos.y + offsetY
  if y + b.afterPos.height < AXIS_HEIGHT ∨ y > dims.height then none
  else
    let afterEndX := b.afterPos.x + b.afterPos.width
    let isTrailing := b.afterPos = b.beforePos
    let bx? : Option ℚ :=
      if isTrailing then some (afterEndX + 4)
      else
        let gapWidth := b.beforePos.x - afterEndX
        if gapWidth < 24 then none
        else some (afterEndX + (gapWidth - tw - 8) / 2)
    match bx? with
    | none => none
    | some bx =>
      if bx > dims.width ∨ bx + 40 < GROUP_LABEL_WIDTH then none
      else
        let bw := tw + 8
        let badgeH : ℚ := 16
        some { x := bx, y := y + (b.afterPos.height - badgeH) / 2, w := bw, h := badgeH,
               minYear := b.yearMin, maxYear := b.yearMax,
               rightmostLabelWidth := b.rightmostLabelWidth }

/-- All badge hit rectangles of a frame; twOf gives the measured label text
width for a badge count. -/
def badgeHitRects (dims : Dims) (offsetY : ℚ) (twOf : ℕ → ℚ)
    (bs : List HiddenBadge) : List BadgeHitRect :=
  bs.filterMap (fun b => badgeRect dims offsetY (twOf b.count) b)

/-- The year padding applied around the year range of a clicked badge. -/
def badgePadding (yearMin yearMax : ℚ) : ℚ :=
  max ((yearMax - yearMin) * (15/100)) 20

/-- Camera target produced by clicking a badge: zoom to fit the padded year
range into the plot width left of the rightmost label, clamping the scale
to the interval from 0.05 to 5, then solve the offset so the padded range
starts at the left plot edge. -/
def badgeClickTarget (dims : Dims) (minYear : ℚ) (badge : BadgeHitRect)
    (prev : ViewState) : ViewState :=
  let yearRange := badge.maxYear - badge.minYear
  let padding := badgePadding badge.minYear badge.maxYear
  let fitMin := badge.minYear - padding
  let fitMax := badge.maxYear + padding
  let fitRange := fitMax - fitMin
  let availableWidth := dims.width - GROUP_LABEL_WIDTH - badge.rightmostLabelWidth
  let newScale := max (1/20) (min 5 (availableWidth / (fitRange * 10)))
  let newOffsetX := -(fitMin - minYear) * newScale * 10 - 50
  let _ := yearRange
  { prev with scale := newScale, offsetX := newOffsetX }

/-- The fit operation: frame the entire year extent at a clamped scale;
center vertically when the content is shorter than the viewport, otherwise
center on the selection when there is one; center the selection
horizontally when there is one. -/
def fit (dims : Dims) (minYear maxYear minSc totalHeight : ℚ)
    (selected : Option TimelineEntry) (positioned : List PositionedEvent) : ViewState :=
  let yearRange := maxYear - minYear
  let availableWidth := dims.width - GROUP_LABEL_WIDTH - 100
  let newScale := availableWidth / (yearRange * 10)
  let finalScale := max minSc (min 5 newScale)
  let contentHeight := totalHeight - AXIS_HEIGHT
  let viewportHeight := dims.height - AXIS_HEIGHT
  let offsetY :=
    if contentHeight ≤ viewportHeight then (viewportHeight - contentHeight) / 2
    else
      match selected with
      | some sel =>
        match positioned.find? (fun p => p.entry.id = sel.id) with
        | some pos =>
          let oy := -(pos.y - dims.height / 2 + ROW_HEIGHT / 2 - AXIS_HEIGHT)
          let minOffsetY := min 0 (dims.height - AXIS_HEIGHT - totalHeight)
          max minOffsetY (min 0 oy)
        | none => 0
      | none => 0
  let offsetX :=
    match selected with
    | some sel =>
      let entryYear :=
        if sel.date_start.era = Era.BCE then -sel.date_start.year else sel.date_start.year
      let pixelsPerYear := finalScale * 10
      let ox := -(entryYear - minYear) * pixelsPerYear + (dims.width - GROUP_LABEL_WIDTH) / 2 - 50
      ox
    | none => 0
  { offsetX := offsetX, offsetY := offsetY, scale := finalScale }

/-- Imperative navigation to a record: center it horizontally and
vertically; raise the zoom only when a same row neighbor would collide at
the current scale, clamping the raised scale above at 5 only. -/
def scrollToEntry (dims : Dims) (minYear : ℚ) (measure : TimelineEntry → ℚ)
    (positioned : List PositionedEvent) (prevTarget : ViewState)
    (entry : TimelineEntry) : ViewState :=
  match positioned.find? (fun p => p.entry.id = entry.id) with
  | none => prevTarget
  | some pos =>
    let entryYear := getYear entry false
    let entryWidth := measure entry
    let sameRow := List.insertionSort
      (fun a b => getYear a.entry false ≤ getYear b.entry false)
      (positioned.filter (fun p => p.group = pos.group ∧ p.row = pos.row))
    let idx := sameRow.findIdx (fun p => p.entry.id = entry.id)
    let neededScale : ℚ := 0
    let neededScale :=
      if 0 < idx then
        let left := sameRow.getD (idx - 1) pos
        let yearGap := entryYear - getYear left.entry false
        if 0 < yearGap then
          max neededScale ((measure left.entry + OVERLAP_GAP) / (yearGap * 10))
        else neededScale
      else neededScale
    let neededScale :=
      if idx < sameRow.length - 1 then
        let right := sameRow.getD (idx + 1) pos
        let yearGap := getYear right.entry false - entryYear
        if 0 < yearGap then
          max neededScale ((entryWidth + OVERLAP_GAP) / (yearGap * 10))
        else neededScale
      else neededScale
    let finalScale :=
      if 0 < neededScale then min 5 (neededScale * (11/10)) else prevTarget.scale
    let pixelsPerYear := finalScale * 10
    let targetX := -(entryYear - minYear) * pixelsPerYear + (dims.width - GROUP_LABEL_WIDTH) / 2 - 50
    let targetY := -(pos.y - dims.height / 2 + ROW_HEIGHT / 2 - AXIS_HEIGHT)
    { offsetX := targetX, offsetY := targetY, scale := finalScale }

/-- A point record (no end date) in the common era, used as concrete input. -/
def pointEntry (id : String) (year : ℚ) (grp : String) : TimelineEntry :=
  { id := id, title := "", date_start := { year := year, era := Era.CE, circa := false },
    date_end := none, group_dynasty := grp, group_era := grp }

/-- A measurement context assigning every record a 40 pixel label. -/
def measure40 : TimelineEntry → ℚ := fun _ => 40

/-- Concrete viewport used by the concrete scenarios. -/
def dims800 : Dims := { width := 800, height := 600 }

/-- Two far apart records sharing a group and a row. -/
def c1entries : List TimelineEntry :=
  [pointEntry "a" 0 "A", pointEntry "b" 1000000 "A"]

/-- Three records sharing a group and a row, with the middle one culled at
low zoom. -/
def c2entries : List TimelineEntry :=
  [pointEntry "a" 0 "A", pointEntry "b" 100 "A", pointEntry "c" 10000 "A"]

/-- Scenario A records at ordering years 100, 105 and 900. -/
def scenEntries : List TimelineEntry :=
  [pointEntry "e1" 100 "G", pointEntry "e2" 105 "G", pointEntry "e3" 900 "G"]

/-- Scenario A projected rectangle of a point record in the single row. -/
def scenPos (minYear : ℚ) (vs : ViewState) (e : TimelineEntry) : PositionedEvent :=
  { entry := e, x := yearToX minYear vs (getYear e false), y := AXIS_HEIGHT,
    width := measure40 e, height := ROW_HEIGHT - MARKER_PADDING, group := "G", row := 0 }

/-- A concrete projected rectangle anchoring a badge. -/
def c10after : PositionedEvent :=
  { entry := pointEntry "p" 0 "A", x := 200, y := 100, width := 40, height := 24,
    group := "A", row := 0 }

/-- A concrete projected rectangle closing a hidden run 10 pixels after the
anchor rectangle. -/
def c10before : PositionedEvent :=
  { entry := pointEntry "q" 1 "A", x := 250, y := 100, width := 40, height := 24,
    group := "A", row := 0 }

/-- A concrete run closing badge whose anchor gap is 10 pixels. -/
def c10run : HiddenBadge :=
  { afterPos := c10after, beforePos := c10before, count := 1, yearMin := 0, yearMax := 1,
    rightmostLabelWidth := 40 }

/-- A concrete trailing badge on the same anchor. -/
def c10trail : HiddenBadge :=
  { afterPos := c10after, beforePos := c10after, count := 1, yearMin := 0, yearMax := 1,
    rightmostLabelWidth := 40 }

/-! Theorems. -/

/-- C4: for every camera state with a nonzero scale and every year y,
xToYear (yearToX y) = y, and for every pixel coordinate x,
yearToX (xToYear x) = x; the mapping is exactly invertible. -/
theorem yearToX_xToYear_roundtrip (minYear : ℚ) (vs : ViewState) (y x : ℚ)
    (h : vs.scale ≠ 0) :
    xToYear minYear vs (yearToX minYear vs y) = y ∧
    yearToX minYear vs (xToYear minYear vs x) = x := by
  have h10 : vs.scale * 10 ≠ 0 := by
    intro hc
    exact h (by linarith [mul_eq_zero.mp hc.symm.symm])
  constructor
  · unfold xToYear yearToX
    field_simp
    ring
  · unfold xToYear yearToX
    field_simp
    ring

/-- Witness for C4 at a concrete camera state. -/
theorem yearToX_xToYear_roundtrip_witness :
    xToYear 0 ⟨3, 4, 1⟩ (yearToX 0 ⟨3, 4, 1⟩ 7) = 7 ∧
    yearToX 0 ⟨3, 4, 1⟩ (xToYear 0 ⟨3, 4, 1⟩ 321) = 321 :=
  yearToX_xToYear_roundtrip 0 ⟨3, 4, 1⟩ 7 321 (by norm_num)

/-- C6: under a modifier wheel zoom the ordering year that projected to the
pointer x before the rescale projects to the same x after it, for every
starting camera state, pointer position and wheel delta, including when the
new scale is clamped. -/
theorem wheelZoom_pointer_invariant (minYear minSc : ℚ) (vs : ViewState)
    (mouseX deltaY : ℚ) :
    yearToX minYear (wheelZoom minYear minSc vs mouseX deltaY)
      (xToYear minYear vs mouseX) = mouseX := by
  unfold yearToX wheelZoom xToYear
  ring

/-- C9 counterexample: with an 800 pixel viewport and a ten year span, the
exact fit scale is 5.4 but minScale is capped at 0.05, so minScale is not
the scale at which the span fits the viewport width. -/
theorem minScale_ne_fit :
    minScale 800 0 10 ≠ (800 - GROUP_LABEL_WIDTH - 100) / ((10 - 0) * 10) := by
  norm_num [minScale, GROUP_LABEL_WIDTH]

/-- C9 amended: minScale is the exact fit scale capped at 0.05: it equals
the fit scale exactly when that scale is at most 0.05, and is never larger
than 0.05. -/
theorem minScale_eq_fit_of_le (width minYear maxYear : ℚ)
    (h : (width - GROUP_LABEL_WIDTH - 100) / ((maxYear - minYear) * 10) ≤ 1/20) :
    minScale width minYear maxYear =
      (width - GROUP_LABEL_WIDTH - 100) / ((maxYear - minYear) * 10) ∧
    minScale width minYear maxYear ≤ 1/20 :=
  ⟨min_eq_right h, min_le_left _ _⟩

/-- Witness for the amended C9 at a 2000 year span. -/
theorem minScale_eq_fit_of_le_witness :
    minScale 800 0 2000 = (800 - GROUP_LABEL_WIDTH - 100) / ((2000 - 0) * 10) ∧
    minScale 800 0 2000 ≤ 1/20 :=
  minScale_eq_fit_of_le 800 0 2000 (by norm_num [GROUP_LABEL_WIDTH])

/-- C7 counterexample: from target scale 4, zoomIn clamps at 5 and zoomOut
then lands at 50/13, not back at 4; the pair is not inverse at that state. -/
theorem zoomIn_zoomOut_not_inverse :
    zoomOut (minScale 800 0 10) (zoomIn ⟨0, 0, 4⟩) ≠ ⟨0, 0, 4⟩ := by
  intro h
  have hs : (zoomOut (minScale 800 0 10) (zoomIn ⟨0, 0, 4⟩)).scale = 4 := by
    rw [h]
  rw [zoomOut, zoomIn] at hs
  simp only [minScale, GROUP_LABEL_WIDTH] at hs
  norm_num [min_def, max_def] at hs

/-- C7 amended: zoomIn followed immediately by zoomOut restores the camera
target exactly whenever neither clamp engages, that is when the starting
target scale is at least minScale and its raise by the fixed factor 1.3
stays at most 5; when zoomIn clamps at 5 the composition lands at 50/13
instead of the starting scale. -/
theorem zoomIn_zoomOut_inverse (minSc : ℚ) (prev : ViewState)
    (h1 : minSc ≤ prev.scale) (h2 : prev.scale * (13/10) ≤ 5) :
    zoomOut minSc (zoomIn prev) = prev := by
  obtain ⟨ox, oy, s⟩ := prev
  simp only [zoomIn, zoomOut] at *
  have hmin : min 5 (s * (13/10)) = s * (13/10) := min_eq_right h2
  rw [hmin]
  have hdiv : s * (13/10) / (13/10) = s := by ring
  rw [hdiv, max_eq_right h1]

/-- Witness for the amended C7 at scale 1. -/
theorem zoomIn_zoomOut_inverse_witness :
    zoomOut (1/20) (zoomIn ⟨2, 3, 1⟩) = ⟨2, 3, 1⟩ :=
  zoomIn_zoomOut_inverse (1/20) ⟨2, 3, 1⟩ (by norm_num) (by norm_num)

/-- C5: clicking a badge sets a target for which the padded year range,
with pad = max of 15 percent of the range and 20 years, exactly fills the
available plot width whenever the solved scale is not clamped: the left end
of the padded span projects to the left plot edge and the span is exactly
as wide in pixels as the available plot width; for the range 100 to 105 the
pad is 20 years. -/
theorem badgeClick_fits_plot (dims : Dims) (minYear : ℚ) (badge : BadgeHitRect)
    (prev : ViewState)
    (h1 : 1/20 ≤ (dims.width - GROUP_LABEL_WIDTH - badge.rightmostLabelWidth) /
      (((badge.maxYear + badgePadding badge.minYear badge.maxYear) -
        (badge.minYear - badgePadding badge.minYear badge.maxYear)) * 10))
    (h2 : (dims.width - GROUP_LABEL_WIDTH - badge.rightmostLabelWidth) /
      (((badge.maxYear + badgePadding badge.minYear badge.maxYear) -
        (badge.minYear - badgePadding badge.minYear badge.maxYear)) * 10) ≤ 5) :
    yearToX minYear (badgeClickTarget dims minYear badge prev)
      (badge.minYear - badgePadding badge.minYear badge.maxYear) = GROUP_LABEL_WIDTH ∧
    yearToX minYear (badgeClickTarget dims minYear badge prev)
      (badge.maxYear + badgePadding badge.minYear badge.maxYear) -
    yearToX minYear (badgeClickTarget dims minYear badge prev)
      (badge.minYear - badgePadding badge.minYear badge.maxYear) =
      dims.width - GROUP_LABEL_WIDTH - badge.rightmostLabelWidth ∧
    badgePadding 100 105 = 20 := by
  set P := badgePadding badge.minYear badge.maxYear with hP
  set R := (badge.maxYear + P) - (badge.minYear - P) with hR
  set A := dims.width - GROUP_LABEL_WIDTH - badge.rightmostLabelWidth with hA
  have hR10 : R * 10 ≠ 0 := by
    intro h0
    rw [h0, div_zero] at h1
    norm_num at h1
  have hscale : (badgeClickTarget dims minYear badge prev).scale = A / (R * 10) := by
    simp only [badgeClickTarget, ← hP, ← hR, ← hA]
    rw [min_eq_right h2, max_eq_right h1]
  have hoff : (badgeClickTarget dims minYear badge prev).offsetX =
      -((badge.minYear - P) - minYear) * (A / (R * 10)) * 10 - 50 := by
    simp only [badgeClickTarget, ← hP, ← hR, ← hA]
    rw [min_eq_right h2, max_eq_right h1]
  refine ⟨?_, ?_, ?_⟩
  · unfold yearToX
    rw [hscale, hoff]
    ring
  · unfold yearToX
    rw [hscale, hoff]
    have : R * (A / (R * 10)) * 10 = A := by
      field_simp
      ring
    nlinarith [this]
  · norm_num [badgePadding]

/-- Witness for C5 at a concrete badge spanning years 100 to 105. -/
theorem badgeClick_fits_plot_witness :
    yearToX 100 (badgeClickTarget dims800 100 ⟨0, 0, 0, 0, 100, 105, 40⟩ ⟨0, 0, 1⟩)
      (100 - badgePadding 100 105) = GROUP_LABEL_WIDTH ∧
    yearToX 100 (badgeClickTarget dims800 100 ⟨0, 0, 0, 0, 100, 105, 40⟩ ⟨0, 0, 1⟩)
      (105 + badgePadding 100 105) -
    yearToX 100 (badgeClickTarget dims800 100 ⟨0, 0, 0, 0, 100, 105, 40⟩ ⟨0, 0, 1⟩)
      (100 - badgePadding 100 105) = dims800.width - GROUP_LABEL_WIDTH - 40 ∧
    badgePadding 100 105 = 20 :=
  badgeClick_fits_plot dims800 100 ⟨0, 0, 0, 0, 100, 105, 40⟩ ⟨0, 0, 1⟩
    (by norm_num [badgePadding, GROUP_LABEL_WIDTH, dims800])
    (by norm_num [badgePadding, GROUP_LABEL_WIDTH, dims800])

/-- C10: a run closing badge whose anchor gap (left edge of the closing
visible record minus right edge of the preceding visible record) is
narrower than 24 pixels is silently skipped for the frame, yielding no hit
rectangle; a trailing badge is never dropped by the gap rule: it yields a
hit rectangle whenever its row is on screen vertically and its anchor is on
screen horizontally. -/
theorem badge_gap_rule (dims : Dims) (offY tw : ℚ) (b : HiddenBadge) :
    (b.afterPos ≠ b.beforePos →
      b.beforePos.x - (b.afterPos.x + b.afterPos.width) < 24 →
      badgeRect dims offY tw b = none) ∧
    (b.afterPos = b.beforePos →
      ¬ (b.afterPos.y + offY + b.afterPos.height < AXIS_HEIGHT ∨
         b.afterPos.y + offY > dims.height) →
      ¬ (b.afterPos.x + b.afterPos.width + 4 > dims.width ∨
         b.afterPos.x + b.afterPos.width + 4 + 40 < GROUP_LABEL_WIDTH) →
      badgeRect dims offY tw b =
        some { x := b.afterPos.x + b.afterPos.width + 4,
               y := b.afterPos.y + offY + (b.afterPos.height - 16) / 2,
               w := tw + 8, h := 16, minYear := b.yearMin, maxYear := b.yearMax,
               rightmostLabelWidth := b.rightmostLabelWidth }) := by
  constructor
  · intro hnt hgap
    unfold badgeRect
    by_cases hy : b.afterPos.y + offY + b.afterPos.height < AXIS_HEIGHT ∨
        b.afterPos.y + offY > dims.height
    · rw [if_pos hy]
    · rw [if_neg hy]
      simp only [if_neg hnt, if_pos hgap]
  · intro ht hy hx
    unfold badgeRect
    rw [if_neg hy]
    simp only [if_pos ht]
    rw [if_neg hx]

/-- Witness for C10 on the concrete badges: the 10 pixel gap badge yields
no hit rectangle, the trailing badge on the same anchor yields one. -/
theorem badge_gap_rule_witness :
    badgeRect dims800 0 10 c10run = none ∧
    badgeRect dims800 0 10 c10trail =
      some { x := 244, y := 104, w := 18, h := 16, minYear := 0, maxYear := 1,
             rightmostLabelWidth := 40 } := by
  constructor
  · exact (badge_gap_rule dims800 0 10 c10run).1
      (by simp [c10run, c10after, c10before, pointEntry])
      (by norm_num [c10run, c10after, c10before])
  · have h := (badge_gap_rule dims800 0 10 c10trail).2 rfl
      (by norm_num [c10trail, c10after, dims800, AXIS_HEIGHT])
      (by norm_num [c10trail, c10after, dims800, GROUP_LABEL_WIDTH])
    rw [h]
    norm_num [c10trail, c10after]

/-- C1 amended: every target mutating camera operation except scrollToEntry
leaves the target scale within minScale and 5: zoomIn and zoomOut preserve
a scale already in range when 0 ≤ minScale ≤ 5, fit and wheel zoom clamp
into the range outright, badge click clamps into the interval from 0.05 to
5 which is contained in the range because minScale is at most 0.05, and a
drag leaves the scale unchanged. scrollToEntry clamps only from above. -/
theorem scale_clamped_ops (minSc : ℚ) (prev : ViewState) (dims : Dims)
    (minYear maxYear totalHeight : ℚ) (selected : Option TimelineEntry)
    (positioned : List PositionedEvent) (mouseX deltaY : ℚ)
    (badge : BadgeHitRect) (ds : DragStart) (clientX clientY : ℚ)
    (h0 : 0 ≤ minSc) (h5 : minSc ≤ 5) (hcap : minSc ≤ 1/20)
    (hpre1 : minSc ≤ prev.scale) (hpre2 : prev.scale ≤ 5) :
    (minSc ≤ (zoomIn prev).scale ∧ (zoomIn prev).scale ≤ 5) ∧
    (minSc ≤ (zoomOut minSc prev).scale ∧ (zoomOut minSc prev).scale ≤ 5) ∧
    (minSc ≤ (fit dims minYear maxYear minSc totalHeight selected positioned).scale ∧
      (fit dims minYear maxYear minSc totalHeight selected positioned).scale ≤ 5) ∧
    (minSc ≤ (wheelZoom minYear minSc prev mouseX deltaY).scale ∧
      (wheelZoom minYear minSc prev mouseX deltaY).scale ≤ 5) ∧
    (minSc ≤ (badgeClickTarget dims minYear badge prev).scale ∧
      (badgeClickTarget dims minYear badge prev).scale ≤ 5) ∧
    (dragMove dims totalHeight ds clientX clientY prev.scale).scale = prev.scale := by
  refine ⟨⟨?_, ?_⟩, ⟨?_, ?_⟩, ⟨?_, ?_⟩, ⟨?_, ?_⟩, ⟨?_, ?_⟩, ?_⟩
  · simp only [zoomIn]
    exact le_min h5 (by linarith)
  · simp only [zoomIn]
    exact min_le_left _ _
  · simp only [zoomOut]
    exact le_max_left _ _
  · simp only [zoomOut]
    exact max_le h5 (by linarith)
  · simp only [fit]
    exact le_max_left _ _
  · simp only [fit]
    exact max_le h5 (min_le_left _ _)
  · simp only [wheelZoom]
    exact le_max_left _ _
  · simp only [wheelZoom]
    exact max_le h5 (min_le_left _ _)
  · simp only [badgeClickTarget]
    exact le_trans hcap (le_max_left _ _)
  · simp only [badgeClickTarget]
    exact max_le (by norm_num) (min_le_left _ _)
  · simp only [dragMove]

/-- Witness for the amended C1 at concrete inputs. -/
theorem scale_clamped_ops_witness :
    ((1:ℚ)/20 ≤ (zoomIn ⟨0, 0, 1⟩).scale ∧ (zoomIn ⟨0, 0, 1⟩).scale ≤ 5) ∧
    ((1:ℚ)/20 ≤ (zoomOut (1/20) ⟨0, 0, 1⟩).scale ∧ (zoomOut (1/20) ⟨0, 0, 1⟩).scale ≤ 5) ∧
    ((1:ℚ)/20 ≤ (fit dims800 0 100 (1/20) 68 none []).scale ∧
      (fit dims800 0 100 (1/20) 68 none []).scale ≤ 5) ∧
    ((1:ℚ)/20 ≤ (wheelZoom 0 (1/20) ⟨0, 0, 1⟩ 300 2).scale ∧
      (wheelZoom 0 (1/20) ⟨0, 0, 1⟩ 300 2).scale ≤ 5) ∧
    ((1:ℚ)/20 ≤ (badgeClickTarget dims800 0 ⟨0, 0, 0, 0, 100, 105, 40⟩ ⟨0, 0, 1⟩).scale ∧
      (badgeClickTarget dims800 0 ⟨0, 0, 0, 0, 100, 105, 40⟩ ⟨0, 0, 1⟩).scale ≤ 5) ∧
    (dragMove dims800 68 ⟨0, 0, 0, 0⟩ 50 (-30) (1:ℚ)).scale = 1 :=
  scale_clamped_ops (1/20) ⟨0, 0, 1⟩ dims800 0 100 68 none [] 300 2
    ⟨0, 0, 0, 0, 100, 105, 40⟩ ⟨0, 0, 0, 0⟩ 50 (-30)
    (by norm_num) (by norm_num) (by norm_num) (by norm_num) (by norm_num)

/-- C8 amended: a drag move and a vertical wheel pan clamp the vertical
offset into the interval from min of 0 and viewport height minus content
height up to 0; fit with content no taller than the viewport instead
centers, setting the offset to half the slack, which is nonnegative and
exceeds 0 whenever the content is strictly shorter; scrollToEntry does not
clamp the vertical offset at all. -/
theorem offsetY_clamped_partial (dims : Dims) (totalHeight minYear maxYear minSc : ℚ)
    (ds : DragStart) (clientX clientY vsScale deltaY : ℚ) (prev : ViewState)
    (selected : Option TimelineEntry) (positioned : List PositionedEvent)
    (hshort : totalHeight - AXIS_HEIGHT ≤ dims.height - AXIS_HEIGHT) :
    (min 0 (dims.height - AXIS_HEIGHT - totalHeight) ≤
        (dragMove dims totalHeight ds clientX clientY vsScale).offsetY ∧
      (dragMove dims totalHeight ds clientX clientY vsScale).offsetY ≤ 0) ∧
    (min 0 (dims.height - AXIS_HEIGHT - totalHeight) ≤
        (wheelPanY dims totalHeight deltaY prev).offsetY ∧
      (wheelPanY dims totalHeight deltaY prev).offsetY ≤ 0) ∧
    ((fit dims minYear maxYear minSc totalHeight selected positioned).offsetY =
        ((dims.height - AXIS_HEIGHT) - (totalHeight - AXIS_HEIGHT)) / 2 ∧
      0 ≤ (fit dims minYear maxYear minSc totalHeight selected positioned).offsetY) := by
  have hfit : (fit dims minYear maxYear minSc totalHeight selected positioned).offsetY =
      ((dims.height - AXIS_HEIGHT) - (totalHeight - AXIS_HEIGHT)) / 2 := by
    simp only [fit]
    rw [if_pos hshort]
  refine ⟨⟨?_, ?_⟩, ⟨?_, ?_⟩, hfit, ?_⟩
  · simp only [dragMove]
    exact le_max_left _ _
  · simp only [dragMove]
    exact max_le (min_le_left _ _) (min_le_left _ _)
  · simp only [wheelPanY]
    exact le_max_left _ _
  · simp only [wheelPanY]
    exact max_le (min_le_left _ _) (min_le_left _ _)
  · rw [hfit]
    linarith

/-- Witness for the amended C8 at concrete inputs. -/
theorem offsetY_clamped_partial_witness :
    (min 0 (dims800.height - AXIS_HEIGHT - 68) ≤
        (dragMove dims800 68 ⟨0, 0, 0, 0⟩ 50 (-30) 1).offsetY ∧
      (dragMove dims800 68 ⟨0, 0, 0, 0⟩ 50 (-30) 1).offsetY ≤ 0) ∧
    (min 0 (dims800.height - AXIS_HEIGHT - 68) ≤
        (wheelPanY dims800 68 4 ⟨0, 0, 1⟩).offsetY ∧
      (wheelPanY dims800 68 4 ⟨0, 0, 1⟩).offsetY ≤ 0) ∧
    ((fit dims800 0 100 (1/20) 68 none []).offsetY =
        ((dims800.height - AXIS_HEIGHT) - (68 - AXIS_HEIGHT)) / 2 ∧
      0 ≤ (fit dims800 0 100 (1/20) 68 none []).offsetY) :=
  offsetY_clamped_partial dims800 68 0 100 (1/20) ⟨0, 0, 0, 0⟩ 50 (-30) 1 4 ⟨0, 0, 1⟩
    none [] (by norm_num [dims800, AXIS_HEIGHT])

/-- Ordering year of a concrete point record. -/
theorem getYear_pointEntry (id : String) (y : ℚ) (g : String) (b : Bool) :
    getYear (pointEntry id y g) b = y := by
  cases b <;> simp [getYear, pointEntry]

/-- Group key of a concrete point record with a nonempty group. -/
theorem getGroupKey_pointEntry (mode : GroupingMode) (id : String) (y : ℚ) (g : String)
    (hg : ¬ g = "") : getGroupKey mode (pointEntry id y g) = g := by
  cases mode <;> simp [getGroupKey, pointEntry, hg]

/-- End or start year of a concrete point record. -/
theorem endOrStartYear_pointEntry (id : String) (y : ℚ) (g : String) :
    endOrStartYear (pointEntry id y g) = y := by
  unfold endOrStartYear
  rw [getYear_pointEntry, getYear_pointEntry]
  split <;> simp_all

/-- Evaluation of the stable layout on the two far apart records: one group,
one row each, total height 68. -/
theorem c1layout_eval :
    stableLayout GroupingMode.dynasty measure40 c1entries =
      { layoutEntries := [⟨pointEntry "a" 0 "A", 0, "A"⟩, ⟨pointEntry "b" 1000000 "A", 0, "A"⟩],
        groups := [⟨"A", [pointEntry "a" 0 "A", pointEntry "b" 1000000 "A"], 40, 28⟩],
        totalHeight := 68 } := by
  simp [stableLayout, sortedGroupKeys, firstDedup, firstDedupAux, groupFirstYear,
    getGroupKey_pointEntry, c1entries, measure40, List.insertionSort, List.orderedInsert,
    assignRowsAux, findRow, updateRows, pixelsToYears, LAYOUT_SCALE, getYear_pointEntry,
    AXIS_HEIGHT, ROW_HEIGHT]
  norm_num

/-- Evaluation of the projected rectangles of the two far apart records at
scale 3/10. -/
theorem c1positioned_eval :
    positionedEvents GroupingMode.dynasty measure40 c1entries ⟨0, 0, 3/10⟩ =
      [⟨pointEntry "a" 0 "A", 210, 40, 40, 24, "A", 0⟩,
       ⟨pointEntry "b" 1000000 "A", 3000210, 40, 40, 24, "A", 0⟩] := by
  have hmm : minMaxYears c1entries = (0, 1000000) := by
    simp [minMaxYears, c1entries, pointEntry, getYear]
  rw [positionedEvents, c1layout_eval, hmm]
  simp [positionedOf, groupYOf, yearToX, getYear_pointEntry, measure40,
    AXIS_HEIGHT, ROW_HEIGHT, MARKER_PADDING, GROUP_LABEL_WIDTH]
  norm_num

/-- C1 counterexample: scrolling to the far record computes a neighbor
driven scale of 99/20000000, strictly below minScale which is 27/500000 for
this record set, so the scale after scrollToEntry is outside the required
interval. -/
theorem scrollToEntry_scale_below_minScale :
    ¬ (minScale dims800.width (minMaxYears c1entries).1 (minMaxYears c1entries).2 ≤
       (scrollToEntry dims800 (minMaxYears c1entries).1 measure40
         (positionedEvents GroupingMode.dynasty measure40 c1entries ⟨0, 0, 3/10⟩)
         ⟨0, 0, 3/10⟩ (pointEntry "b" 1000000 "A")).scale) := by
  have hmm : minMaxYears c1entries = (0, 1000000) := by
    simp [minMaxYears, c1entries, pointEntry, getYear]
  rw [c1positioned_eval, hmm]
  have hscale : (scrollToEntry dims800 0 measure40
      [⟨pointEntry "a" 0 "A", 210, 40, 40, 24, "A", 0⟩,
       ⟨pointEntry "b" 1000000 "A", 3000210, 40, 40, 24, "A", 0⟩]
      ⟨0, 0, 3/10⟩ (pointEntry "b" 1000000 "A")).scale = 99/20000000 := by
    simp [scrollToEntry, pointEntry, measure40, List.insertionSort, List.orderedInsert,
      getYear, List.findIdx, List.findIdx.go, OVERLAP_GAP]
    norm_num
  rw [hscale]
  norm_num [minScale, dims800, GROUP_LABEL_WIDTH]

/-- Evaluation of the stable layout on the three record set: one group, all
three records in row zero, total height 68. -/
theorem c2layout_eval :
    stableLayout GroupingMode.dynasty measure40 c2entries =
      { layoutEntries := [⟨pointEntry "a" 0 "A", 0, "A"⟩, ⟨pointEntry "b" 100 "A", 0, "A"⟩,
          ⟨pointEntry "c" 10000 "A", 0, "A"⟩],
        groups := [⟨"A", [pointEntry "a" 0 "A", pointEntry "b" 100 "A",
          pointEntry "c" 10000 "A"], 40, 28⟩],
        totalHeight := 68 } := by
  simp [stableLayout, sortedGroupKeys, firstDedup, firstDedupAux, groupFirstYear,
    getGroupKey_pointEntry, c2entries, measure40, List.insertionSort, List.orderedInsert,
    assignRowsAux, findRow, updateRows, pixelsToYears, LAYOUT_SCALE, getYear_pointEntry,
    AXIS_HEIGHT, ROW_HEIGHT]
  norm_num [findRow, updateRows]

/-- Evaluation of the projected rectangles of the three record set at scale
1/100: x positions 210, 220 and 1210. -/
theorem c2positioned_eval :
    positionedEvents GroupingMode.dynasty measure40 c2entries ⟨0, 0, 1/100⟩ =
      [⟨pointEntry "a" 0 "A", 210, 40, 40, 24, "A", 0⟩,
       ⟨pointEntry "b" 100 "A", 220, 40, 40, 24, "A", 0⟩,
       ⟨pointEntry "c" 10000 "A", 1210, 40, 40, 24, "A", 0⟩] := by
  have hmm : minMaxYears c2entries = (0, 10000) := by
    simp [minMaxYears, c2entries, pointEntry, getYear]
    norm_num
  rw [positionedEvents, c2layout_eval, hmm]
  simp [positionedOf, groupYOf, yearToX, getYear_pointEntry, measure40,
    AXIS_HEIGHT, ROW_HEIGHT, MARKER_PADDING, GROUP_LABEL_WIDTH]
  norm_num

/-- C8 counterexample: on the three record set the content is 28 pixels
tall inside a 560 pixel viewport, and fit sets the vertical offset to 266,
strictly above the upper clamp bound 0. -/
theorem fit_offsetY_above_zero :
    ¬ ((fit dims800 (minMaxYears c2entries).1 (minMaxYears c2entries).2
        (minScale dims800.width (minMaxYears c2entries).1 (minMaxYears c2entries).2)
        (stableLayout GroupingMode.dynasty measure40 c2entries).totalHeight
        none
        (positionedEvents GroupingMode.dynasty measure40 c2entries ⟨0, 0, 1/100⟩)).offsetY ≤ 0) := by
  intro hle
  have hth : (stableLayout GroupingMode.dynasty measure40 c2entries).totalHeight = 68 := by
    rw [c2layout_eval]
  rw [hth] at hle
  simp only [fit] at hle
  rw [if_pos (by norm_num [AXIS_HEIGHT, dims800])] at hle
  norm_num [AXIS_HEIGHT, dims800] at hle

/-- Evaluation of the row bucketing on the three projected records: a single
bucket holding all three. -/
theorem c2rows_eval :
    rowEvents [⟨pointEntry "a" 0 "A", 210, 40, 40, 24, "A", 0⟩,
       ⟨pointEntry "b" 100 "A", 220, 40, 40, 24, "A", 0⟩,
       ⟨pointEntry "c" 10000 "A", 1210, 40, 40, 24, "A", 0⟩] =
      [("A:0", [⟨pointEntry "a" 0 "A", 210, 40, 40, 24, "A", 0⟩,
        ⟨pointEntry "b" 100 "A", 220, 40, 40, 24, "A", 0⟩,
        ⟨pointEntry "c" 10000 "A", 1210, 40, 40, 24, "A", 0⟩])] := by
  have hk : ("A" ++ ":" ++ toString (0 : ℕ)) = "A:0" := rfl
  have hk2 : ("A:" ++ toString (0 : ℕ)) = "A:0" := rfl
  simp [rowEvents, rowKey, firstDedup, firstDedupAux, hk, hk2]

/-- Evaluation of the visibility pass on the three projected records: the
first and last stay visible and the middle one folds into one badge. -/
theorem c2vis_eval :
    rowVis measure40 [⟨pointEntry "a" 0 "A", 210, 40, 40, 24, "A", 0⟩,
       ⟨pointEntry "b" 100 "A", 220, 40, 40, 24, "A", 0⟩,
       ⟨pointEntry "c" 10000 "A", 1210, 40, 40, 24, "A", 0⟩] =
      (["a", "c"],
       [⟨⟨pointEntry "a" 0 "A", 210, 40, 40, 24, "A", 0⟩,
         ⟨pointEntry "c" 10000 "A", 1210, 40, 40, 24, "A", 0⟩, 1, 0, 10000, 40⟩]) := by
  simp [rowVis, rowScanAux, measure40, OVERLAP_GAP, getYear, endOrStartYear, pointEntry]
  norm_num [rowScanAux, measure40, OVERLAP_GAP, getYear, endOrStartYear, pointEntry]

/-- C2 counterexample: on the three record set with the middle record
selected while lying inside the hidden run, the sole row holds 3 records
but the visible member count plus the badge count sum is 4: the selected
record is force drawn yet still counted inside the badge. -/
theorem selected_in_run_double_counted :
    rowEvents (positionedEvents GroupingMode.dynasty measure40 c2entries ⟨0, 0, 1/100⟩) =
      [("A:0", positionedEvents GroupingMode.dynasty measure40 c2entries ⟨0, 0, 1/100⟩)] ∧
    (positionedEvents GroupingMode.dynasty measure40 c2entries ⟨0, 0, 1/100⟩).length = 3 ∧
    List.countP
        (fun e => decide (e.entry.id ∈ visibleSet measure40
          (rowEvents (positionedEvents GroupingMode.dynasty measure40 c2entries ⟨0, 0, 1/100⟩))
          (some (pointEntry "b" 100 "A"))))
        (positionedEvents GroupingMode.dynasty measure40 c2entries ⟨0, 0, 1/100⟩) +
      ((rowVis measure40
          (positionedEvents GroupingMode.dynasty measure40 c2entries ⟨0, 0, 1/100⟩)).2.map
        HiddenBadge.count).sum = 4 := by
  refine ⟨?_, ?_, ?_⟩
  · rw [c2positioned_eval, c2rows_eval]
  · rw [c2positioned_eval]
    rfl
  · rw [c2positioned_eval, c2rows_eval, c2vis_eval]
    simp only [visibleSet, List.map_cons, List.map_nil, c2vis_eval]
    simp [pointEntry, List.countP_cons]

/-- Every badge emitted by the scan loop closes a hidden run and carries
the ordering year of the preceding visible record as yearMin and the end
or start year of the closing record as yearMax. -/
theorem rowScanAux_badge_shape (measure : TimelineEntry → ℚ) :
    ∀ (rest : List PositionedEvent) (lastVis prev : PositionedEvent) (hidden : ℕ),
      ∀ b ∈ (rowScanAux measure lastVis prev hidden rest).badges,
        b.yearMin = getYear b.afterPos.entry false ∧
        b.yearMax = endOrStartYear b.beforePos.entry := by
  intro rest
  induction rest with
  | nil =>
    intro lastVis prev hidden b hb
    simp [rowScanAux] at hb
  | cons curr rest ih =>
    intro lastVis prev hidden b hb
    rw [rowScanAux] at hb
    by_cases hc : curr.x ≥ prev.x + prev.width + OVERLAP_GAP
    · rw [if_pos hc] at hb
      simp only [List.mem_append] at hb
      rcases hb with hb | hb
      · by_cases hh : 0 < hidden
        · simp only [if_pos hh, List.mem_singleton] at hb
          subst hb
          exact ⟨rfl, rfl⟩
        · simp [if_neg hh] at hb
      · exact ih curr curr 0 b hb
    · rw [if_neg hc] at hb
      exact ih lastVis curr (hidden + 1) b hb

/-- C3 amended: a badge emitted when a hidden run is closed has yearMin
equal to the ordering year of the preceding visible record that opened the
run (not the first hidden record) and yearMax equal to the end or start
year of the closing boundary record; in Scenario A, with the three 40 pixel
point records at years 100, 105 and 900 in one row, at any camera scale at
which 5 year units map to fewer than 5 pixels while the 105 to 900 gap maps
to at least 45 pixels, the records at 100 and 900 stay visible and the
record at 105 folds into one badge with count 1, yearMin 100 and
yearMax 900 (the closing record year, not 105). -/
theorem scenarioA_badge :
    (∀ (measure : TimelineEntry → ℚ) (row : List PositionedEvent) (b : HiddenBadge),
      b ∈ (rowVis measure row).2 → b.afterPos ≠ b.beforePos →
        b.yearMin = getYear b.afterPos.entry false ∧
        b.yearMax = endOrStartYear b.beforePos.entry) ∧
    (∀ minY o oy s : ℚ, 5 * (s * 10) < 5 → 45 ≤ (900 - 105) * (s * 10) →
      rowVis measure40 [scenPos minY ⟨o, oy, s⟩ (pointEntry "e1" 100 "G"),
        scenPos minY ⟨o, oy, s⟩ (pointEntry "e2" 105 "G"),
        scenPos minY ⟨o, oy, s⟩ (pointEntry "e3" 900 "G")] =
      (["e1", "e3"],
       [{ afterPos := scenPos minY ⟨o, oy, s⟩ (pointEntry "e1" 100 "G"),
          beforePos := scenPos minY ⟨o, oy, s⟩ (pointEntry "e3" 900 "G"),
          count := 1, yearMin := 100, yearMax := 900, rightmostLabelWidth := 40 }])) := by
  constructor
  · intro measure row b hb hnt
    cases row with
    | nil => simp [rowVis] at hb
    | cons first rest =>
      simp only [rowVis, List.mem_append] at hb
      rcases hb with hb | hb
      · exact rowScanAux_badge_shape measure rest first first 0 b hb
      · by_cases hh : 0 < (rowScanAux measure first first 0 rest).hidden
        · simp only [if_pos hh, List.mem_singleton] at hb
          subst hb
          exact absurd rfl hnt
        · simp [if_neg hh] at hb
  · intro minY o oy s h1 h2
    simp [rowVis, rowScanAux, scenPos, yearToX, measure40, getYear_pointEntry,
      endOrStartYear_pointEntry, OVERLAP_GAP, GROUP_LABEL_WIDTH]
    split_ifs with hc1 hc2 hc3 <;>
      first
        | (exfalso; linarith)
        | simp [pointEntry]

/-- Witness for the amended C3: the general clause applied to the badge of
the three record row, and Scenario A at scale 1/20. -/
theorem scenarioA_badge_witness :
    ((⟨⟨pointEntry "a" 0 "A", 210, 40, 40, 24, "A", 0⟩,
       ⟨pointEntry "c" 10000 "A", 1210, 40, 40, 24, "A", 0⟩, 1, 0, 10000, 40⟩ : HiddenBadge).yearMin =
        getYear (pointEntry "a" 0 "A") false ∧
     (⟨⟨pointEntry "a" 0 "A", 210, 40, 40, 24, "A", 0⟩,
       ⟨pointEntry "c" 10000 "A", 1210, 40, 40, 24, "A", 0⟩, 1, 0, 10000, 40⟩ : HiddenBadge).yearMax =
        endOrStartYear (pointEntry "c" 10000 "A")) ∧
    rowVis measure40 [scenPos 100 ⟨0, 0, 1/20⟩ (pointEntry "e1" 100 "G"),
        scenPos 100 ⟨0, 0, 1/20⟩ (pointEntry "e2" 105 "G"),
        scenPos 100 ⟨0, 0, 1/20⟩ (pointEntry "e3" 900 "G")] =
      (["e1", "e3"],
       [{ afterPos := scenPos 100 ⟨0, 0, 1/20⟩ (pointEntry "e1" 100 "G"),
          beforePos := scenPos 100 ⟨0, 0, 1/20⟩ (pointEntry "e3" 900 "G"),
          count := 1, yearMin := 100, yearMax := 900, rightmostLabelWidth := 40 }]) :=
  ⟨scenarioA_badge.1 measure40
      [⟨pointEntry "a" 0 "A", 210, 40, 40, 24, "A", 0⟩,
       ⟨pointEntry "b" 100 "A", 220, 40, 40, 24, "A", 0⟩,
       ⟨pointEntry "c" 10000 "A", 1210, 40, 40, 24, "A", 0⟩]
      ⟨⟨pointEntry "a" 0 "A", 210, 40, 40, 24, "A", 0⟩,
       ⟨pointEntry "c" 10000 "A", 1210, 40, 40, 24, "A", 0⟩, 1, 0, 10000, 40⟩
      (by rw [c2vis_eval]; simp)
      (by simp [pointEntry]),
   scenarioA_badge.2 100 0 0 (1/20) (by norm_num) (by norm_num)⟩

/-- C3 counterexample: at scale 1/20 (5 year units map to 2.5 pixels) the
Scenario A row folds the record at 105 into one badge whose yearMax is 900,
the closing record year, not 105 as the scenario claims. -/
theorem scenarioA_yearMax_not_105 :
    ((rowVis measure40 [scenPos 100 ⟨0, 0, 1/20⟩ (pointEntry "e1" 100 "G"),
        scenPos 100 ⟨0, 0, 1/20⟩ (pointEntry "e2" 105 "G"),
        scenPos 100 ⟨0, 0, 1/20⟩ (pointEntry "e3" 900 "G")]).2.map HiddenBadge.yearMax = [900]) ∧
    ¬ ((rowVis measure40 [scenPos 100 ⟨0, 0, 1/20⟩ (pointEntry "e1" 100 "G"),
        scenPos 100 ⟨0, 0, 1/20⟩ (pointEntry "e2" 105 "G"),
        scenPos 100 ⟨0, 0, 1/20⟩ (pointEntry "e3" 900 "G")]).2.map HiddenBadge.yearMax = [105]) := by
  have h : (rowVis measure40 [scenPos 100 ⟨0, 0, 1/20⟩ (pointEntry "e1" 100 "G"),
      scenPos 100 ⟨0, 0, 1/20⟩ (pointEntry "e2" 105 "G"),
      scenPos 100 ⟨0, 0, 1/20⟩ (pointEntry "e3" 900 "G")]).2.map HiddenBadge.yearMax = [900] := by
    simp [rowVis, rowScanAux, scenPos, yearToX, measure40, getYear, endOrStartYear,
      pointEntry, OVERLAP_GAP, GROUP_LABEL_WIDTH, AXIS_HEIGHT, ROW_HEIGHT, MARKER_PADDING]
    norm_num [rowScanAux, endOrStartYear, getYear, pointEntry]
  rw [h]
  norm_num

/-- Conservation along the scan loop: visible adds plus badge counts plus
the pending hidden count grow exactly with the records consumed. -/
theorem rowScanAux_conservation (measure : TimelineEntry → ℚ) :
    ∀ (rest : List PositionedEvent) (lastVis prev : PositionedEvent) (hidden : ℕ),
      (rowScanAux measure lastVis prev hidden rest).vis.length +
        ((rowScanAux measure lastVis prev hidden rest).badges.map HiddenBadge.count).sum +
        (rowScanAux measure lastVis prev hidden rest).hidden = hidden + rest.length := by
  intro rest
  induction rest with
  | nil =>
    intro lastVis prev hidden
    simp [rowScanAux]
  | cons curr rest ih =>
    intro lastVis prev hidden
    rw [rowScanAux]
    by_cases hc : curr.x ≥ prev.x + prev.width + OVERLAP_GAP
    · rw [if_pos hc]
      have h0 := ih curr curr 0
      by_cases hh : 0 < hidden
      · simp [if_pos hh]
        omega
      · simp [if_neg hh]
        omega
    · rw [if_neg hc]
      have := ih lastVis curr (hidden + 1)
      simp only [List.length_cons]
      omega

/-- The visible ids produced by the scan loop form a subsequence of the ids
of the records scanned. -/
theorem rowScanAux_vis_sublist (measure : TimelineEntry → ℚ) :
    ∀ (rest : List PositionedEvent) (lastVis prev : PositionedEvent) (hidden : ℕ),
      (rowScanAux measure lastVis prev hidden rest).vis.Sublist (rest.map (fun p => p.entry.id)) := by
  intro rest
  induction rest with
  | nil =>
    intro lastVis prev hidden
    simp [rowScanAux]
  | cons curr rest ih =>
    intro lastVis prev hidden
    rw [rowScanAux]
    by_cases hc : curr.x ≥ prev.x + prev.width + OVERLAP_GAP
    · rw [if_pos hc]
      simp only [List.map_cons]
      exact List.Sublist.cons₂ _ (ih curr curr 0)
    · rw [if_neg hc]
      simp only [List.map_cons]
      exact List.Sublist.cons _ (ih lastVis curr (hidden + 1))

/-- Per row conservation: the number of visible ids plus the sum of all
badge counts of the row equals the number of records in the row. -/
theorem rowVis_conservation (measure : TimelineEntry → ℚ) (row : List PositionedEvent) :
    (rowVis measure row).1.length +
      ((rowVis measure row).2.map HiddenBadge.count).sum = row.length := by
  cases row with
  | nil => simp [rowVis]
  | cons first rest =>
    have h := rowScanAux_conservation measure rest first first 0
    simp only [rowVis, List.length_cons, List.map_append, List.sum_append]
    by_cases hh : 0 < (rowScanAux measure first first 0 rest).hidden
    · simp only [if_pos hh, List.map_cons, List.map_nil, List.sum_cons, List.sum_nil]
      omega
    · simp only [if_neg hh, List.map_nil, List.sum_nil]
      omega

/-- The visible ids of a row form a subsequence of the row ids. -/
theorem rowVis_vis_sublist (measure : TimelineEntry → ℚ) (row : List PositionedEvent) :
    (rowVis measure row).1.Sublist (row.map (fun p => p.entry.id)) := by
  cases row with
  | nil => simp [rowVis]
  | cons first rest =>
    simp only [rowVis, List.map_cons]
    exact List.Sublist.cons₂ _ (rowScanAux_vis_sublist measure rest first first 0)

/-- Counting members of a subsequence inside a list with no duplicates
recovers the length of the subsequence. -/
theorem countP_mem_sublist :
    ∀ (m s : List String), m.Nodup → s.Sublist m →
      (m.countP fun a => decide (a ∈ s)) = s.length := by
  intro m
  induction m with
  | nil =>
    intro s _ hsub
    have hs : s = [] := List.sublist_nil.mp hsub
    subst hs
    simp
  | cons a m ih =>
    intro s hnd hsub
    have ha : a ∉ m := (List.nodup_cons.mp hnd).1
    have hnd2 : m.Nodup := hnd.of_cons
    cases hsub with
    | cons _ h =>
      have has : a ∉ s := fun hmem => ha (h.subset hmem)
      rw [List.countP_cons, ih s hnd2 h]
      simp [has]
    | cons₂ _ h =>
      rename_i t
      rw [List.countP_cons]
      have hcongr : (m.countP fun x => decide (x ∈ a :: t)) =
          (m.countP fun x => decide (x ∈ t)) := by
        apply List.countP_congr
        intro x hx
        have hxa : x ≠ a := fun he => ha (he ▸ hx)
        simp [List.mem_cons, hxa]
      rw [hcongr, ih t hnd2 h]
      simp

/-- Membership in first occurrence deduplication. -/
theorem firstDedupAux_mem (l : List String) :
    ∀ (seen : List String) (x : String),
      x ∈ firstDedupAux seen l ↔ x ∈ l ∧ x ∉ seen := by
  induction l with
  | nil =>
    intro seen x
    simp [firstDedupAux]
  | cons a l ih =>
    intro seen x
    rw [firstDedupAux]
    by_cases ha : a ∈ seen
    · rw [if_pos ha]
      rw [ih seen x]
      constructor
      · rintro ⟨hx, hs⟩
        exact ⟨List.mem_cons_of_mem a hx, hs⟩
      · rintro ⟨hx, hs⟩
        rcases List.mem_cons.mp hx with he | hm
        · exact absurd (he ▸ ha) hs
        · exact ⟨hm, hs⟩
    · rw [if_neg ha]
      constructor
      · intro hx
        rcases List.mem_cons.mp hx with he | hm
        · exact ⟨he ▸ List.mem_cons_self a l, he ▸ ha⟩
        · have := (ih (a :: seen) x).mp hm
          exact ⟨List.mem_cons_of_mem a this.1,
            fun hs => this.2 (List.mem_cons_of_mem a hs)⟩
      · rintro ⟨hx, hs⟩
        rcases List.mem_cons.mp hx with he | hm
        · exact he ▸ List.mem_cons_self a _
        · by_cases hxa : x = a
          · exact hxa ▸ List.mem_cons_self a _
          · exact List.mem_cons_of_mem a ((ih (a :: seen) x).mpr
              ⟨hm, fun hin => (List.mem_cons.mp hin).elim hxa hs⟩)

/-- First occurrence deduplication has no duplicates. -/
theorem firstDedupAux_nodup (l : List String) :
    ∀ (seen : List String), (firstDedupAux seen l).Nodup := by
  induction l with
  | nil =>
    intro seen
    simp [firstDedupAux]
  | cons a l ih =>
    intro seen
    rw [firstDedupAux]
    by_cases ha : a ∈ seen
    · rw [if_pos ha]
      exact ih seen
    · rw [if_neg ha]
      refine List.nodup_cons.mpr ⟨?_, ih (a :: seen)⟩
      intro hmem
      exact ((firstDedupAux_mem l (a :: seen) a).mp hmem).2 (List.mem_cons_self a seen)

/-- Flat mapping the per key filters over a duplicate free list of keys
covering a list permutes the list. -/
theorem flatMap_filter_perm {α : Type} (f : α → String) :
    ∀ (ks : List String) (l : List α), ks.Nodup → (∀ x ∈ l, f x ∈ ks) →
      (ks.flatMap fun k => l.filter fun x => f x = k).Perm l := by
  intro ks
  induction ks with
  | nil =>
    intro l _ hall
    have : l = [] := by
      cases l with
      | nil => rfl
      | cons a t => exact absurd (hall a (List.mem_cons_self a t)) (List.not_mem_nil _)
    simp [this]
  | cons k ks ih =>
    intro l hnd hall
    have hk : k ∉ ks := (List.nodup_cons.mp hnd).1
    have hnd2 : ks.Nodup := hnd.of_cons
    rw [List.flatMap_cons]
    have hswap : (ks.flatMap fun c => l.filter fun x => f x = c) =
        ks.flatMap fun c => (l.filter fun x => ¬ f x = k).filter fun x => f x = c := by
      rw [List.flatMap, List.flatMap]
      congr 1
      apply List.map_congr_left
      intro c hc
      rw [List.filter_filter]
      apply List.filter_congr
      intro x hx
      have : decide (f x = c) = true → decide (¬ f x = k) = true := by
        intro hd
        have hfc : f x = c := of_decide_eq_true hd
        simp only [decide_eq_true_eq]
        intro hfk
        rw [hfk] at hfc
        rw [hfc] at hk
        exact hk hc
      cases hdc : decide (f x = c) with
      | true => simp [this hdc]
      | false => simp
    rw [hswap]
    have hsub : ∀ x ∈ l.filter fun x => ¬ f x = k, f x ∈ ks := by
      intro x hx
      have hxl := List.mem_of_mem_filter hx
      have hxk : ¬ f x = k := by
        have := List.of_mem_filter hx
        exact of_decide_eq_true this
      rcases List.mem_cons.mp (hall x hxl) with he | hm
      · exact absurd he hxk
      · exact hm
    have hperm := ih (l.filter fun x => ¬ f x = k) hnd2 hsub
    refine ((hperm.append_left (l.filter fun x => f x = k)).trans ?_)
    have := List.filter_append_perm (fun x => f x = k) l
    refine List.Perm.trans ?_ this
    apply List.Perm.append_left
    apply List.Perm.of_eq
    apply List.filter_congr
    intro x hx
    simp

/-- The shelf packing loop returns the records it was given, in order, each
paired with a row index. -/
theorem assignRowsAux_fst (measure : TimelineEntry → ℚ) :
    ∀ (es : List TimelineEntry) (rows : List ℚ),
      (assignRowsAux measure rows es).1.map Prod.fst = es := by
  intro es
  induction es with
  | nil =>
    intro rows
    simp [assignRowsAux]
  | cons e es ih =>
    intro rows
    rw [assignRowsAux]
    simp only [List.map_cons]
    rw [ih]

/-- The records of the stable layout are a permutation of the input record
set. -/
theorem stableLayout_entries_perm (mode : GroupingMode) (measure : TimelineEntry → ℚ)
    (entries : List TimelineEntry) :
    ((stableLayout mode measure entries).layoutEntries.map LayoutEntry.entry).Perm entries := by
  rw [stableLayout]
  simp only [List.map_flatMap, List.flatMap_map, List.map_map]
  have hstep : ∀ k : String,
      ((assignRowsAux measure []
          (List.insertionSort (fun a b => getYear a false ≤ getYear b false)
            (entries.filter (fun e => getGroupKey mode e = k)))).1.map
        (LayoutEntry.entry ∘ fun p => { entry := p.1, row := p.2, group := k })) =
      List.insertionSort (fun a b => getYear a false ≤ getYear b false)
        (entries.filter (fun e => getGroupKey mode e = k)) := by
    intro k
    have : (LayoutEntry.entry ∘ fun p : TimelineEntry × ℕ =>
        ({ entry := p.1, row := p.2, group := k } : LayoutEntry)) = Prod.fst := by
      funext p
      rfl
    rw [this, assignRowsAux_fst]
  have hone : ((sortedGroupKeys mode entries).flatMap fun a =>
      (assignRowsAux measure []
        (List.insertionSort (fun x b => getYear x false ≤ getYear b false)
          (entries.filter (fun e => getGroupKey mode e = a)))).1.map
        (LayoutEntry.entry ∘ fun p => { entry := p.1, row := p.2, group := a })).Perm
      ((sortedGroupKeys mode entries).flatMap
        (fun k => entries.filter (fun e => getGroupKey mode e = k))) := by
    apply List.Perm.flatMap_left
    intro k _
    rw [hstep k]
    exact List.perm_insertionSort _ _
  have htwo : ((sortedGroupKeys mode entries).flatMap
      (fun k => entries.filter (fun e => getGroupKey mode e = k))).Perm
      ((firstDedup (entries.map (getGroupKey mode))).flatMap
        (fun k => entries.filter (fun e => getGroupKey mode e = k))) :=
    List.Perm.flatMap_right _ (List.perm_insertionSort _ _)
  have hthree : ((firstDedup (entries.map (getGroupKey mode))).flatMap
      (fun k => entries.filter (fun e => getGroupKey mode e = k))).Perm entries := by
    apply flatMap_filter_perm
    · exact firstDedupAux_nodup _ []
    · intro x hx
      rw [firstDedup, firstDedupAux_mem]
      exact ⟨List.mem_map_of_mem _ hx, List.not_mem_nil _⟩
  exact (hone.trans htwo).trans hthree

/-- Distinct record ids survive projection: the projected records carry
duplicate free ids whenever the records do. -/
theorem positionedEvents_ids_nodup (mode : GroupingMode) (measure : TimelineEntry → ℚ)
    (entries : List TimelineEntry) (vs : ViewState)
    (hids : (entries.map TimelineEntry.id).Nodup) :
    ((positionedEvents mode measure entries vs).map
      (fun p => p.entry.id)).Nodup := by
  rw [positionedEvents, positionedOf]
  simp only [List.map_map]
  have hcomp : ((fun p : PositionedEvent => p.entry.id) ∘ fun le : LayoutEntry =>
      ({ entry := le.entry,
         x := yearToX (minMaxYears entries).1 vs (getYear le.entry false),
         y := groupYOf (stableLayout mode measure entries).groups le.group +
           (le.row : ℚ) * ROW_HEIGHT,
         width := if le.entry.date_end.isSome then
             max (yearToX (minMaxYears entries).1 vs (getYear le.entry true) -
               yearToX (minMaxYears entries).1 vs (getYear le.entry false))
               (measure le.entry)
           else measure le.entry,
         height := ROW_HEIGHT - MARKER_PADDING,
         group := le.group, row := le.row } : PositionedEvent)) =
      (TimelineEntry.id ∘ LayoutEntry.entry) := by
    funext le
    rfl
  rw [hcomp, ← List.map_map]
  exact (List.Perm.nodup_iff ((stableLayout_entries_perm mode measure
    entries).map TimelineEntry.id)).mpr hids

/-- A bucket of rowEvents is exactly the filter of the projected records by
its key. -/
theorem rowEvents_mem {ps : List PositionedEvent} {k : String}
    {row : List PositionedEvent} (h : (k, row) ∈ rowEvents ps) :
    row = ps.filter (fun p => rowKey p = k) := by
  rw [rowEvents] at h
  rcases List.mem_map.mp h with ⟨k2, _, he⟩
  injection he with h1 h2
  rw [← h1]
  exact h2.symm

/-- C2 amended: for every record set with pairwise distinct ids, grouping
mode, camera state and selection, and for every (group, row) bucket of the
projected records: whenever the selected record is visible in the row or
absent from it (in particular when nothing is selected), the number of the
row records lying in the visible set plus the sum of the hidden counts of
the badges of the row equals the number of records in the row. When the
selected record sits inside a hidden run of the row the sum instead
overshoots by one, because the forced visible add happens after the badges
are built. -/
theorem row_conservation (mode : GroupingMode) (measure : TimelineEntry → ℚ)
    (entries : List TimelineEntry) (vs : ViewState) (selected : Option TimelineEntry)
    (hids : (entries.map TimelineEntry.id).Nodup)
    (k : String) (row : List PositionedEvent)
    (hrow : (k, row) ∈ rowEvents (positionedEvents mode measure entries vs))
    (hsel : ∀ sel, selected = some sel →
      sel.id ∈ (rowVis measure row).1 ∨
        ¬ sel.id ∈ row.map (fun p => p.entry.id)) :
    row.countP
        (fun e => decide (e.entry.id ∈
          visibleSet measure (rowEvents (positionedEvents mode measure entries vs)) selected)) +
      ((rowVis measure row).2.map HiddenBadge.count).sum = row.length := by
  have hpsnd : ((positionedEvents mode measure entries vs).map
      (fun p => p.entry.id)).Nodup :=
    positionedEvents_ids_nodup mode measure entries vs hids
  have hrowf : row = (positionedEvents mode measure entries vs).filter
      (fun p => rowKey p = k) := rowEvents_mem hrow
  have hrsub : row.Sublist (positionedEvents mode measure entries vs) := by
    rw [hrowf]
    exact List.filter_sublist _
  have hrnd : (row.map (fun p => p.entry.id)).Nodup :=
    List.Nodup.sublist (hrsub.map _) hpsnd
  have hvsub : (rowVis measure row).1.Sublist (row.map (fun p => p.entry.id)) :=
    rowVis_vis_sublist measure row
  have hpoint : ∀ e ∈ row,
      (decide (e.entry.id ∈
        visibleSet measure (rowEvents (positionedEvents mode measure entries vs)) selected)) =
      (decide (e.entry.id ∈ (rowVis measure row).1)) := by
    intro e he
    rw [decide_eq_decide]
    constructor
    · intro hin
      rw [visibleSet, List.mem_append] at hin
      rcases hin with hin | hin
      · rcases List.mem_flatten.mp hin with ⟨l, hl, hel⟩
        rcases List.mem_map.mp hl with ⟨⟨k2, row2⟩, hr2, hl2⟩
        rw [← hl2] at hel
        have hrow2f : row2 = (positionedEvents mode measure entries vs).filter
            (fun p => rowKey p = k2) := rowEvents_mem hr2
        have hidin : e.entry.id ∈ row2.map (fun p => p.entry.id) :=
          (rowVis_vis_sublist measure row2).subset hel
        rcases List.mem_map.mp hidin with ⟨e2, he2, hid2⟩
        have he2f : e2 ∈ (positionedEvents mode measure entries vs).filter
            (fun p => rowKey p = k2) := by
          rw [← hrow2f]
          exact he2
        have he2ps : e2 ∈ positionedEvents mode measure entries vs :=
          List.mem_of_mem_filter he2f
        have heps : e ∈ positionedEvents mode measure entries vs := hrsub.subset he
        have heq : e2 = e :=
          List.inj_on_of_nodup_map hpsnd he2ps heps hid2
        have hk2 : rowKey e2 = k2 := by
          have := List.of_mem_filter he2f
          exact of_decide_eq_true this
        have hk1 : rowKey e = k := by
          have hef : e ∈ (positionedEvents mode measure entries vs).filter
              (fun p => rowKey p = k) := by
            rw [← hrowf]
            exact he
          have := List.of_mem_filter hef
          exact of_decide_eq_true this
        have hkk : k2 = k := by
          rw [← hk2, heq, hk1]
        have hrr : row2 = row := by
          rw [hrow2f, hkk, ← hrowf]
        rw [← hid2, heq] at hel ⊢
        rw [hrr] at hel
        exact hel
      · cases selected with
        | none => exact absurd hin (List.not_mem_nil _)
        | some sel =>
          have hin2 : e.entry.id = sel.id := List.mem_singleton.mp hin
          rcases hsel sel rfl with hv | hnot
          · rw [hin2]
            exact hv
          · exfalso
            apply hnot
            rw [← hin2]
            exact List.mem_map_of_mem _ he
    · intro hin
      rw [visibleSet, List.mem_append]
      left
      apply List.mem_flatten.mpr
      refine ⟨(rowVis measure row).1, ?_, hin⟩
      apply List.mem_map.mpr
      exact ⟨(k, row), hrow, rfl⟩
  have hcount : row.countP
      (fun e => decide (e.entry.id ∈
        visibleSet measure (rowEvents (positionedEvents mode measure entries vs)) selected)) =
      row.countP (fun e => decide (e.entry.id ∈ (rowVis measure row).1)) := by
    apply List.countP_congr
    intro x hx
    rw [hpoint x hx]
  rw [hcount]
  have hmap : row.countP (fun e => decide (e.entry.id ∈ (rowVis measure row).1)) =
      (row.map (fun p => p.entry.id)).countP
        (fun a => decide (a ∈ (rowVis measure row).1)) := by
    rw [List.countP_map]
    rfl
  rw [hmap, countP_mem_sublist _ _ hrnd hvsub]
  exact rowVis_conservation measure row

/-- Witness for the amended C2 on the three record set with no selection:
2 visible plus one badge of count 1 accounts for all 3 records. -/
theorem row_conservation_witness :
    List.countP
        (fun e : PositionedEvent => decide (e.entry.id ∈
          visibleSet measure40
            (rowEvents (positionedEvents GroupingMode.dynasty measure40 c2entries ⟨0, 0, 1/100⟩))
            none))
        [⟨pointEntry "a" 0 "A", 210, 40, 40, 24, "A", 0⟩,
         ⟨pointEntry "b" 100 "A", 220, 40, 40, 24, "A", 0⟩,
         ⟨pointEntry "c" 10000 "A", 1210, 40, 40, 24, "A", 0⟩] +
      ((rowVis measure40 [⟨pointEntry "a" 0 "A", 210, 40, 40, 24, "A", 0⟩,
         ⟨pointEntry "b" 100 "A", 220, 40, 40, 24, "A", 0⟩,
         ⟨pointEntry "c" 10000 "A", 1210, 40, 40, 24, "A", 0⟩]).2.map
        HiddenBadge.count).sum = 3 :=
  row_conservation GroupingMode.dynasty measure40 c2entries ⟨0, 0, 1/100⟩ none
    (by simp [c2entries, pointEntry])
    "A:0"
    [⟨pointEntry "a" 0 "A", 210, 40, 40, 24, "A", 0⟩,
     ⟨pointEntry "b" 100 "A", 220, 40, 40, 24, "A", 0⟩,
     ⟨pointEntry "c" 10000 "A", 1210, 40, 40, 24, "A", 0⟩]
    (by rw [c2positioned_eval, c2rows_eval]; simp)
    (by intro sel h; cases h)

end Timeline
